import Mathlib

/-!
Verification of the `service_crategen` code-generation core
(`src/service_crategen/src/commands/generate/codegen/mod.rs`).

The Rust source is shallowly embedded: pure functions become Lean functions;
the recursive ownership resolver, which in Rust may fail to terminate on a
cyclic shape graph and may abort (via `unwrap`) on a missing shape lookup,
is embedded with an explicit fuel parameter in the `Except GenErr` monad.
`GenErr.fatal` models an abort of the generator (`unwrap` failure /
unrecognized protocol), `GenErr.outOfFuel` models fuel exhaustion; a result
that is `.error .outOfFuel` for every fuel value is a divergent computation.

Parts of the repository that are referenced but live outside the provided
source file (the `botocore` data model accessors, `Service` queries,
`util::capitalize_first`, `inflector::to_snake_case`, the type-filter
oracle and the protocol backends) are modelled from the spec; each such
definition carries a doc comment saying so.
-/

namespace Crategen

/-- Ownership classification of a generated type (mod.rs lines 191-195). -/
inductive Ownership
  | owned
  | borrowed
deriving DecidableEq, Repr

deriving instance DecidableEq for Except

/-- Error outcomes of the embedded generator: `fatal` models a Rust abort
(`unwrap` on a missing value, or the unknown-protocol abort); `outOfFuel`
models exhaustion of the recursion fuel. -/
inductive GenErr
  | fatal
  | outOfFuel
deriving DecidableEq, Repr

/-- Shape-kind tag of the botocore data model.  Modelled from the spec (§3):
"a shape-kind tag — one of Blob, Boolean, Double, Float, Integer, Long,
String, Timestamp, List, Map, Structure". -/
inductive ShapeType
  | blob
  | boolean
  | double
  | float
  | integer
  | long
  | string
  | timestamp
  | list
  | map
  | structure'
deriving DecidableEq, Repr

/-- Modelled from the spec (§3): a Member is "a named occurrence of a shape
inside a Structure.  Attributes: the referenced shape's name, a deprecated
flag, a streaming flag", plus optional documentation.  The Rust
`member.streaming()` accessor is modelled as the `streaming` field. -/
structure Member where
  shape : String
  deprecated : Option Bool := none
  streaming : Bool := false
  documentation : Option String := none
deriving DecidableEq, Repr

/-- Modelled from the spec (§3): a Shape carries its kind tag, optional
documentation, an exception flag, for List shapes a reference to the element
shape (`member`), for Map shapes key/value references, for Structure shapes
a named member collection plus the set of required member names. -/
structure Shape where
  shape_type : ShapeType
  members : Option (List (String × Member)) := none
  member : Option Member := none
  key : Option Member := none
  value : Option Member := none
  required : List String := []
  exception : Bool := false
  documentation : Option String := none
deriving DecidableEq, Repr

/-- Modelled from the spec (§3): an operation input/output shape reference. -/
structure OpShapeRef where
  shape : String
deriving DecidableEq, Repr

/-- Modelled from the spec (§3): an Operation has optional input and output
shape references. -/
structure Operation where
  input : Option OpShapeRef := none
  output : Option OpShapeRef := none
deriving DecidableEq, Repr

/-- Modelled from the spec (§3, §6): the root Service entity: name, protocol
tag, keyed shape collection, keyed operation collection.  The two
reachability sets produced once per service by the out-of-scope type-filter
collaborator (`filter_types`, spec §6: "two set-membership predicates over
sanitized type names") are modelled as data packaged with the Service. -/
structure Service where
  name : String
  protocol : String
  shapes : List (String × Shape)
  operations : List (String × Operation)
  serialized_types : List String := []
  deserialized_types : List String := []
deriving DecidableEq, Repr

/-- Modelled from the spec (§6): "look up a shape by name". -/
def Service.get_shape (svc : Service) (name : String) : Option Shape :=
  (svc.shapes.find? (fun p => p.1 == name)).map (fun p => p.2)

/-- The Rust pattern `service.get_shape(name).unwrap()`: a missing shape
reference aborts the generator. -/
def get_shape_unwrap (svc : Service) (name : String) : Except GenErr Shape :=
  match svc.get_shape name with
  | some s => .ok s
  | none => .error .fatal

/-- Modelled from the spec (§6): "get the shape referenced by a given member"
(`service.shape_for_member`). -/
def Service.shape_for_member (svc : Service) (m : Member) : Option Shape :=
  svc.get_shape m.shape

/-- Modelled from the spec: `service.shape_type_for_member`, the kind tag of
the shape referenced by a member, when it resolves. -/
def Service.shape_type_for_member (svc : Service) (m : Member) : Option ShapeType :=
  (svc.get_shape m.shape).map (fun s => s.shape_type)

/-- The botocore accessor `shape.member_type()`: the element-shape name of a
List shape; aborts (`unwrap`) when the element reference is absent.
Modelled from the spec (§3): "for List shapes, a reference to the element
shape's name". -/
def Shape.member_type (s : Shape) : Except GenErr String :=
  match s.member with
  | some m => .ok m.shape
  | none => .error .fatal

/-- The botocore accessor `shape.key_type()` (Map key shape name). -/
def Shape.key_type (s : Shape) : Except GenErr String :=
  match s.key with
  | some m => .ok m.shape
  | none => .error .fatal

/-- The botocore accessor `shape.value_type()` (Map value shape name). -/
def Shape.value_type (s : Shape) : Except GenErr String :=
  match s.value with
  | some m => .ok m.shape
  | none => .error .fatal

/-- The botocore accessor `shape.required(member_name)`: membership in the
required set. -/
def Shape.is_required (s : Shape) (member_name : String) : Bool :=
  s.required.contains member_name

mutual

/-- mod.rs lines 251-269, `get_shape_ownership`: scan the named member
collection, then the single List element member; `Borrowed` as soon as one
member is borrowed, else `Owned`.  Fuel models the unguarded recursion. -/
def get_shape_ownership (svc : Service) : Nat → Shape → Except GenErr Ownership
  | 0, _ => .error .outOfFuel
  | fuel + 1, shape => do
    let anyBorrowed ←
      (match shape.members with
       | some ms =>
         ms.foldl
           (fun acc p => do
             let b ← acc
             if b then
               pure true
             else do
               let o ← get_member_ownership svc fuel p.2
               pure (o == Ownership.borrowed))
           (pure false)
       | none => pure false)
    if anyBorrowed then
      pure Ownership.borrowed
    else
      match shape.member with
      | some m => do
        let o ← get_member_ownership svc fuel m
        if o == Ownership.borrowed then pure Ownership.borrowed else pure Ownership.owned
      | none => pure Ownership.owned
termination_by structural fuel _ => fuel

/-- mod.rs lines 271-300, `get_member_ownership`.  Note the `if let`:
a member whose referenced shape is missing falls through to `Owned` without
error, while the inner Map-key/value and List-element lookups `unwrap`. -/
def get_member_ownership (svc : Service) : Nat → Member → Except GenErr Ownership
  | 0, _ => .error .outOfFuel
  | fuel + 1, member =>
    match svc.get_shape member.shape with
    | some member_shape =>
      match member_shape.shape_type with
      | .string => .ok Ownership.borrowed
      | .map => do
        let kt ← member_shape.key_type
        let ks ← get_shape_unwrap svc kt
        let key_ownership ← get_shape_ownership svc fuel ks
        let vt ← member_shape.value_type
        let vs ← get_shape_unwrap svc vt
        let value_ownership ← get_shape_ownership svc fuel vs
        if key_ownership == Ownership.borrowed || value_ownership == Ownership.borrowed then
          pure Ownership.borrowed
        else
          pure Ownership.owned
      | .list => do
        let mt ← member_shape.member_type
        let ms ← get_shape_unwrap svc mt
        let value_ownership ← get_shape_ownership svc fuel ms
        if value_ownership == Ownership.borrowed then
          pure Ownership.borrowed
        else
          pure Ownership.owned
      | .structure' => do
        let child_ownership ← get_shape_ownership svc fuel member_shape
        if child_ownership == Ownership.borrowed then
          pure Ownership.borrowed
        else
          pure Ownership.owned
      | _ => .ok Ownership.owned
    | none => .ok Ownership.owned
termination_by structural fuel _ => fuel

end


/-- Modelled from the spec (§4.5): `util::capitalize_first` (repository code
outside the provided source file): "capitalize the schema name" — the first
character is uppercased. -/
def capitalize_first (s : String) : String :=
  match s.toList with
  | [] => ""
  | c :: rest => String.mk (c.toUpper :: rest)

/-- The Rust `capitalized.replace("_", "")` step of `mutate_type_name`:
every underscore is removed. -/
def strip_underscores (s : String) : String :=
  String.mk (s.toList.filter (fun c => c ≠ '_'))

/-- mod.rs lines 324-343, `mutate_type_name`: capitalize, strip underscores,
then apply the fixed collision table. -/
def mutate_type_name (type_name : String) : String :=
  let capitalized := capitalize_first type_name
  let without_underscores := strip_underscores capitalized
  match without_underscores with
  | "Error" => "S3Error"
  | "CancelSpotFleetRequests" => "EC2CancelSpotFleetRequests"
  | "Option" => "RDSOption"
  | _ => without_underscores

/-- mod.rs lines 346-348, `mutate_type_name_for_streaming`. -/
def mutate_type_name_for_streaming (type_name : String) : String :=
  "Streaming" ++ type_name

/-- mod.rs lines 550-553, `error_type_name`. -/
def error_type_name (name : String) : String :=
  let type_name := mutate_type_name name
  type_name ++ "Error"

/-- Modelled from the spec (§4.5): `to_snake_case` from the external
`inflector` crate; the spec says only "convert the schema member name to
lower-snake-case".  An underscore is inserted before each uppercase letter
(except at the start) and all letters are lowercased. -/
def to_snake_case (s : String) : String :=
  s.toList.foldl
    (fun acc c =>
      if c.isUpper then
        (if acc.isEmpty then acc else acc ++ "_") ++ String.mk [c.toLower]
      else
        acc ++ String.mk [c])
    ""

/-- mod.rs lines 84-91, `generate_field_name`: snake-case the member name and
append an underscore when the result is exactly `return` or `type`. -/
def generate_field_name (member_name : String) : String :=
  let name := to_snake_case member_name
  if name = "return" ∨ name = "type" then name ++ "_" else name

/-- mod.rs lines 302-309, `has_streaming_member`. -/
def has_streaming_member (name : String) (shape : Shape) : Bool :=
  shape.shape_type == ShapeType.structure' &&
  shape.members.isSome &&
  (shape.members.getD []).any (fun p => p.2.shape == name && p.2.streaming)

/-- mod.rs lines 311-315, `is_streaming_shape`. -/
def is_streaming_shape (svc : Service) (name : String) : Bool :=
  svc.shapes.any (fun p => has_streaming_member name p.2)

/-- mod.rs lines 317-321, `is_input_shape`: some operation's input references
this (already sanitized, as called) shape name. -/
def is_input_shape (svc : Service) (name : String) : Bool :=
  svc.operations.any (fun p =>
    match p.2.input with
    | some i => i.shape == name
    | none => false)

/-- mod.rs lines 199-249, `get_rust_type`: the resolved Rust type text and
ownership classification of one shape occurrence.  The `memo` parameter of
the Rust function is threaded but never read or written there, so it is
omitted here.  Lookups mirror the source's `unwrap`s; the List case discards
the element's own classification and recomputes ownership via
`get_shape_ownership`, exactly as the source does. -/
def get_rust_type (svc : Service) :
    Nat → String → Shape → Bool → String → Except GenErr (String × Ownership)
  | 0, _, _, _, _ => .error .outOfFuel
  | fuel + 1, shape_name, shape, streaming, for_timestamps =>
    if !streaming then
      match shape.shape_type with
      | .blob => .ok ("Vec<u8>", Ownership.owned)
      | .boolean => .ok ("bool", Ownership.owned)
      | .double => .ok ("f64", Ownership.owned)
      | .float => .ok ("f32", Ownership.owned)
      | .integer => .ok ("i64", Ownership.owned)
      | .long => .ok ("i64", Ownership.owned)
      | .string => .ok ("&'a str", Ownership.borrowed)
      | .timestamp => .ok (for_timestamps, Ownership.owned)
      | .list => do
        let mt ← shape.member_type
        let ms ← get_shape_unwrap svc mt
        let elt ← get_rust_type svc fuel mt ms false for_timestamps
        let ms2 ← get_shape_unwrap svc mt
        let ownership ← get_shape_ownership svc fuel ms2
        pure ("Vec<" ++ elt.1 ++ ">", ownership)
      | .map => do
        let kt ← shape.key_type
        let ks ← get_shape_unwrap svc kt
        let keyr ← get_rust_type svc fuel kt ks false for_timestamps
        let vt ← shape.value_type
        let vs ← get_shape_unwrap svc vt
        let valr ← get_rust_type svc fuel vt vs false for_timestamps
        let aggregate_ownership :=
          if keyr.2 == Ownership.borrowed then Ownership.borrowed else valr.2
        pure ("::std::collections::HashMap<" ++ keyr.1 ++ ", " ++ valr.1 ++ ">",
              aggregate_ownership)
      | .structure' => do
        let structure_ownership ← get_shape_ownership svc fuel shape
        let lifetime := if structure_ownership == Ownership.borrowed then "<'a>" else ""
        pure (mutate_type_name shape_name ++ lifetime, structure_ownership)
    else
      .ok (mutate_type_name_for_streaming shape_name, Ownership.owned)
termination_by structural fuel _ _ _ _ => fuel

/-- The serde attribute emitted for Blob members (mod.rs lines 505-511),
whitespace normalized. -/
def blob_serde_attr : String :=
  "#[serde(deserialize_with=\"::rusoto_core::serialization::SerdeBlob::deserialize_blob\", serialize_with=\"::rusoto_core::serialization::SerdeBlob::serialize_blob\", default)]"

/-- The serde attribute emitted for non-required members (mod.rs line 513). -/
def skip_serde_attr : String :=
  "#[serde(skip_serializing_if=\"Option::is_none\")]"

/-- The serde attribute emitted for String members (mod.rs lines 516-520). -/
def borrow_serde_attr : String :=
  "#[serde(borrow)]"

/-- The field-declaration line built at mod.rs lines 535-543: required
members are mandatory fields; a non-required member whose generated field
name is exactly `type` would get an `aws_` prefix; all other non-required
members become `Option` fields. -/
def field_line (shape : Shape) (member_name : String) (rs_type : String) : String :=
  let name := generate_field_name member_name
  if shape.is_required member_name then
    "pub " ++ name ++ ": " ++ rs_type ++ ","
  else if name = "type" then
    "pub aws_" ++ name ++ ": Option<" ++ rs_type ++ ">,"
  else
    "pub " ++ name ++ ": Option<" ++ rs_type ++ ">,"

/-- One loop iteration of `generate_struct_fields` (mod.rs lines 489-545),
threading the mutable `ownership` accumulator explicitly: deprecated members
are skipped; each remaining member contributes its documentation line, its
serde attribute lines (when requested), and its field line; the accumulator
becomes `borrowed` as soon as one resolved member type is borrowed. -/
def generate_struct_fields_go (svc : Service) (fuel : Nat) (shape : Shape)
    (shape_name : String) (serde_attrs : Bool) (for_timestamps : String) :
    List (String × Member) → Ownership → Except GenErr (List String × Ownership)
  | [], ownership => .ok ([], ownership)
  | (member_name, member) :: rest, ownership =>
    if member.deprecated = some true then
      generate_struct_fields_go svc fuel shape shape_name serde_attrs for_timestamps
        rest ownership
    else do
      let docLines : List String :=
        match member.documentation with
        | some docs => ["/// " ++ docs]
        | none => []
      let serdeLines : List String :=
        if serde_attrs then
          ("#[serde(rename=\"" ++ member_name ++ "\")]") ::
          (match svc.shape_type_for_member member with
           | some shape_type =>
             (if shape_type = ShapeType.blob then [blob_serde_attr]
              else if !(shape.is_required member_name) then [skip_serde_attr]
              else []) ++
             (if shape_type = ShapeType.string then [borrow_serde_attr] else [])
           | none => [])
        else []
      let member_shape ←
        (match svc.shape_for_member member with
         | some s => Except.ok s
         | none => Except.error GenErr.fatal)
      let rs ← get_rust_type svc fuel member.shape member_shape
        (member.streaming && !(is_input_shape svc shape_name)) for_timestamps
      let ownership' :=
        if rs.2 == Ownership.borrowed then Ownership.borrowed else ownership
      let entry := String.intercalate "\n"
        (docLines ++ serdeLines ++ [field_line shape member_name rs.1])
      let tail_result ← generate_struct_fields_go svc fuel shape shape_name serde_attrs
        for_timestamps rest ownership'
      pure (entry :: tail_result.1, tail_result.2)

/-- mod.rs lines 480-548, `generate_struct_fields`: the joined field text of
the structure's non-deprecated members together with the aggregate
ownership that decides the struct declaration's lifetime qualifier.
The Rust `shape.members.as_ref().unwrap()` is a fatal abort when the member
collection is absent. -/
def generate_struct_fields (svc : Service) (fuel : Nat) (shape : Shape)
    (shape_name : String) (serde_attrs : Bool) (for_timestamps : String) :
    Except GenErr (String × Ownership) := do
  match shape.members with
  | some ms =>
    let r ← generate_struct_fields_go svc fuel shape shape_name serde_attrs
      for_timestamps ms Ownership.owned
    pure (String.intercalate "\n" r.1, r.2)
  | none => .error .fatal

/-- Modelled from the spec (§4.2): the capabilities a Protocol Backend
supplies to the Type Emitter — struct attribute text from the two
reachability booleans, the protocol's timestamp output type, and optional
per-shape serializer/deserializer bodies.  The concrete four backends live
outside the provided source file. -/
structure ProtocolCaps where
  struct_attributes : Bool → Bool → String
  timestamp_type : String
  serializer : String → Shape → Option String := fun _ _ => none
  deserializer : String → Shape → Option String := fun _ _ => none
  prelude_text : String := ""

/-- Auxiliary: is `pat` a prefix of `l`? -/
def chars_prefix_of : List Char → List Char → Bool
  | [], _ => true
  | _ :: _, [] => false
  | p :: ps, c :: cs => p == c && chars_prefix_of ps cs

/-- Auxiliary: does `pat` occur contiguously in `l`? -/
def chars_infix_of (pat : List Char) : List Char → Bool
  | [] => pat.isEmpty
  | c :: cs => chars_prefix_of pat (c :: cs) || chars_infix_of pat cs

/-- The Rust `struct_attributes.contains("erialize")` test
(mod.rs line 463). -/
def contains_erialize (s : String) : Bool :=
  chars_infix_of "erialize".toList s.toList

/-- mod.rs lines 439-478, `generate_struct` (whitespace normalized): an
absent or empty member collection yields a unit struct `pub struct N;`;
otherwise the field list is emitted inside braces and the declaration
carries `<'a>` exactly when `generate_struct_fields` reports `borrowed`. -/
def generate_struct (svc : Service) (fuel : Nat) (name : String) (shape : Shape)
    (serialized deserialized : Bool) (caps : ProtocolCaps) : Except GenErr String :=
  if shape.members = none ∨ shape.members = some [] then
    .ok (caps.struct_attributes serialized deserialized ++
         "\npub struct " ++ name ++ ";\n")
  else do
    let struct_attributes := caps.struct_attributes serialized deserialized
    let need_serde_attrs := contains_erialize struct_attributes
    let r ← generate_struct_fields svc fuel shape name need_serde_attrs
      caps.timestamp_type
    let lifetime := if r.2 == Ownership.owned then "" else "<'a>"
    pure (struct_attributes ++ "\npub struct " ++ name ++ lifetime ++
          " \x7b\n" ++ r.1 ++ "\n\x7d\n")

/-- The fixed placeholder written by the generated `fmt::Debug` impl of a
streaming wrapper (mod.rs line 395): `write!(f, "<{name}: streaming content>")`. -/
def streaming_debug_format (type_name : String) : String :=
  "<" ++ type_name ++ ": streaming content>"

/-- Semantic model of the generated `fmt::Debug` implementation for a
streaming wrapper: the formatter output ignores the wrapped payload bytes
entirely and prints only the fixed placeholder. -/
def streaming_wrapper_debug (type_name : String) (_payload : List Nat) : String :=
  streaming_debug_format type_name

/-- The companion streaming wrapper emitted at mod.rs lines 388-419
(whitespace normalized): a tuple struct over a boxed reader, a `Debug` impl
printing only the fixed placeholder, `Deref`/`DerefMut`/`Read` pass-through
impls. -/
def streaming_wrapper_text (type_name : String) : String :=
  let streaming_name := mutate_type_name_for_streaming type_name
  "pub struct " ++ streaming_name ++ "(Box<Read>);\n" ++
  "impl fmt::Debug for " ++ streaming_name ++ " \x7b fn fmt(&self, f: &mut fmt::Formatter) -> fmt::Result \x7b write!(f, \"" ++
  streaming_debug_format type_name ++ "\") \x7d \x7d\n" ++
  "impl ::std::ops::Deref for " ++ streaming_name ++
  " \x7b type Target = Box<Read>; fn deref(&self) -> &Box<Read> \x7b &self.0 \x7d \x7d\n" ++
  "impl ::std::ops::DerefMut for " ++ streaming_name ++
  " \x7b fn deref_mut(&mut self) -> &mut Box<Read> \x7b &mut self.0 \x7d \x7d\n" ++
  "impl ::std::io::Read for " ++ streaming_name ++
  " \x7b fn read(&mut self, buf: &mut [u8]) -> ::std::io::Result<usize> \x7b self.0.read(buf) \x7d \x7d\n"

/-- The per-shape body of the `generate_types` loop (mod.rs lines 356-435):
exception shapes are skipped; Structure shapes (except the reserved name
`String`) emit their documentation and struct text; a shape referenced by a
streaming member elsewhere additionally emits the streaming wrapper; then
the optional deserializer and serializer bodies. -/
def generate_types_for_shape (svc : Service) (caps : ProtocolCaps) (fuel : Nat)
    (name : String) (shape : Shape) : Except GenErr (List String) :=
  if shape.exception then
    .ok []
  else do
    let type_name := mutate_type_name name
    let deserialized := svc.deserialized_types.contains type_name
    let serialized := svc.serialized_types.contains type_name
    let structParts ←
      (if shape.shape_type = ShapeType.structure' then do
        let docParts : List String :=
          match shape.documentation with
          | some docs => ["/// " ++ docs]
          | none => []
        if type_name = "String" then
          pure docParts
        else do
          let s ← generate_struct svc fuel type_name shape serialized deserialized caps
          pure (docParts ++ [s])
      else
        pure ([] : List String))
    let streamParts : List String :=
      if is_streaming_shape svc name then [streaming_wrapper_text type_name] else []
    let deserParts : List String :=
      if deserialized then
        match caps.deserializer type_name shape with
        | some d => [d]
        | none => []
      else []
    let serParts : List String :=
      if serialized then
        match caps.serializer type_name shape with
        | some s => [s]
        | none => []
      else []
    pure (structParts ++ streamParts ++ deserParts ++ serParts)

/-- mod.rs lines 350-437, `generate_types`: walk the service's shapes in
order, concatenating each shape's emitted parts. -/
def generate_types (svc : Service) (caps : ProtocolCaps) (fuel : Nat) :
    Except GenErr (List String) :=
  svc.shapes.foldl
    (fun acc p => do
      let l ← acc
      let parts ← generate_types_for_shape svc caps fuel p.1 p.2
      pure (l ++ parts))
    (pure [])

/-- The protocol backend tags (mod.rs lines 8-12): the four generators. -/
inductive ProtocolBackend
  | json_gen
  | query_gen
  | rest_json_gen
  | rest_xml_gen
deriving DecidableEq, Repr

/-- The error-taxonomy backend tags (mod.rs line 13). -/
inductive ErrorTypesBackend
  | json_error_types
  | xml_error_types
deriving DecidableEq, Repr

/-- The output of one generation run, as recorded by the embedding: which
backend pair was selected, and the emitted type sections.  The header,
error-taxonomy, client and test text come from out-of-scope collaborators
(spec §1) and are not elaborated. -/
structure GeneratedModule where
  protocol_backend : ProtocolBackend
  error_backend : ErrorTypesBackend
  sections : List String
deriving DecidableEq, Repr

/-- mod.rs lines 94-140, `generate` (the shared pipeline): header, protocol
prelude, types, error taxonomy, client, tests.  Only the type sections are
elaborated here; the module records which backend pair was threaded
through. -/
def generate (svc : Service) (fuel : Nat) (caps : ProtocolCaps)
    (pb : ProtocolBackend) (eb : ErrorTypesBackend) : Except GenErr GeneratedModule := do
  let types ← generate_types svc caps fuel
  pure { protocol_backend := pb
         error_backend := eb
         sections := "// This file is generated!" :: caps.prelude_text :: types }

/-- mod.rs lines 69-80, `generate_source`: dispatch on the protocol tag;
`json`/`rest-json` pair with the JSON error backend, `query`/`ec2`/`rest-xml`
with the XML error backend, and an unrecognized tag aborts
(`panic!("Unknown protocol ...")`) before anything is generated.  The
capability records of the four concrete backends (out-of-scope code) are
supplied as an assignment `caps`. -/
def generate_source (svc : Service) (fuel : Nat)
    (caps : ProtocolBackend → ProtocolCaps) : Except GenErr GeneratedModule :=
  match svc.protocol with
  | "json" =>
    generate svc fuel (caps .json_gen) .json_gen .json_error_types
  | "query" =>
    generate svc fuel (caps .query_gen) .query_gen .xml_error_types
  | "ec2" =>
    generate svc fuel (caps .query_gen) .query_gen .xml_error_types
  | "rest-json" =>
    generate svc fuel (caps .rest_json_gen) .rest_json_gen .json_error_types
  | "rest-xml" =>
    generate svc fuel (caps .rest_xml_gen) .rest_xml_gen .xml_error_types
  | _ => .error .fatal

/-! Concrete fixture services used by the counterexamples and witnesses. -/

/-- A map whose key shape is Owned (Integer) and whose value shape is a
String, plus a map whose value is a Structure containing a String. -/
def svc_maps : Service :=
  { name := "Maps", protocol := "json",
    shapes :=
      [("K", { shape_type := .integer }),
       ("V", { shape_type := .string }),
       ("W", { shape_type := .structure',
               members := some [("S", { shape := "V" })] }),
       ("M", { shape_type := .map,
               key := some { shape := "K" }, value := some { shape := "V" } }),
       ("M2", { shape_type := .map,
                key := some { shape := "K" }, value := some { shape := "W" } })],
    operations := [] }

def shape_m : Shape :=
  { shape_type := .map, key := some { shape := "K" }, value := some { shape := "V" } }

def shape_k : Shape := { shape_type := .integer }

def shape_v : Shape := { shape_type := .string }

def shape_w : Shape :=
  { shape_type := .structure', members := some [("S", { shape := "V" })] }

def member_m2 : Member := { shape := "M2" }

/-- A self-referential structure: `A` has a member whose shape is `A`
(spec §3: such cycles are legal). -/
def member_self : Member := { shape := "A" }

def shape_a : Shape :=
  { shape_type := .structure', members := some [("SelfRef", member_self)] }

def svc_cyclic : Service :=
  { name := "Cyclic", protocol := "json",
    shapes := [("A", shape_a)], operations := [] }

/-- A structure whose only member is a map with a String key: the field scan
and the shape-ownership scan classify it differently. -/
def shape_ms : Shape :=
  { shape_type := .map, key := some { shape := "K" }, value := some { shape := "V" } }

def shape_s_c3 : Shape :=
  { shape_type := .structure', members := some [("F", { shape := "M" })] }

def svc_c3 : Service :=
  { name := "C3", protocol := "json",
    shapes :=
      [("K", { shape_type := .string }),
       ("V", { shape_type := .integer }),
       ("M", shape_ms),
       ("S", shape_s_c3)],
    operations := [] }

/-- A list of strings. -/
def shape_l : Shape := { shape_type := .list, member := some { shape := "Str" } }

def svc_list : Service :=
  { name := "Lists", protocol := "json",
    shapes := [("Str", { shape_type := .string }), ("L", shape_l)],
    operations := [] }

/-- Fixtures for the protocol dispatch: an empty service under each tag. -/
def svc_proto (tag : String) : Service :=
  { name := "P", protocol := tag, shapes := [], operations := [] }

def demo_caps : ProtocolCaps :=
  { struct_attributes := fun _ _ => "", timestamp_type := "String" }

def demo_caps_of : ProtocolBackend → ProtocolCaps := fun _ => demo_caps

def demo_module (pb : ProtocolBackend) (eb : ErrorTypesBackend) : GeneratedModule :=
  { protocol_backend := pb, error_backend := eb,
    sections := ["// This file is generated!", ""] }

/-- Fixtures for missing shape references. -/
def member_ghost : Member := { shape := "Ghost" }

def shape_s_ghost : Shape :=
  { shape_type := .structure', members := some [("F", member_ghost)] }

def shape_l_ghost : Shape :=
  { shape_type := .list, member := some { shape := "Ghost" } }

/-- A map whose key reference is missing, and a map whose key resolves (to
the String shape `Str2`) but whose value reference is missing. -/
def shape_mk_ghost : Shape :=
  { shape_type := .map,
    key := some { shape := "Ghost" }, value := some { shape := "Str2" } }

def shape_mv_ghost : Shape :=
  { shape_type := .map,
    key := some { shape := "Str2" }, value := some { shape := "Ghost" } }

def svc_ghost : Service :=
  { name := "Ghost", protocol := "json",
    shapes := [("S", shape_s_ghost), ("L", shape_l_ghost),
               ("Str2", { shape_type := .string }),
               ("MK", shape_mk_ghost), ("MV", shape_mv_ghost)],
    operations := [] }

/-- A structure whose member collection is non-empty but entirely
deprecated. -/
def shape_d : Shape :=
  { shape_type := .structure',
    members := some [("Old", { shape := "X", deprecated := some true })] }

def shape_e : Shape := { shape_type := .structure', members := some [] }

def svc_depr : Service :=
  { name := "Depr", protocol := "json",
    shapes := [("X", { shape_type := .string }), ("D", shape_d), ("E", shape_e)],
    operations := [] }

/-- Streaming fixtures: the same structure shape used as an operation input
(`Req`) and not (`Resp`), each with a streaming Blob member. -/
def member_body : Member := { shape := "Data", streaming := true }

def shape_req : Shape :=
  { shape_type := .structure', members := some [("Body", member_body)] }

def shape_resp : Shape :=
  { shape_type := .structure', members := some [("Body", member_body)] }

def svc_stream : Service :=
  { name := "Stream", protocol := "json",
    shapes :=
      [("Data", { shape_type := .blob }),
       ("Req", shape_req),
       ("Resp", shape_resp)],
    operations := [("Op", { input := some { shape := "Req" } })] }

def shape_m2 : Shape :=
  { shape_type := .map, key := some { shape := "K" }, value := some { shape := "W" } }

def member_l : Member := { shape := "L" }

def shape_str : Shape := { shape_type := .string }

/-! Helper lemmas about the `Except` monad operations used by the embedded
generator. -/

@[simp] theorem except_ok_bind {ε α β : Type} (a : α) (f : α → Except ε β) :
    (Except.ok a : Except ε α) >>= f = f a := rfl

@[simp] theorem except_error_bind {ε α β : Type} (e : ε) (f : α → Except ε β) :
    (Except.error e : Except ε α) >>= f = Except.error e := rfl

@[simp] theorem except_map_ok {ε α β : Type} (a : α) (f : α → β) :
    f <$> (Except.ok a : Except ε α) = Except.ok (f a) := rfl

@[simp] theorem except_map_error {ε α β : Type} (e : ε) (f : α → β) :
    f <$> (Except.error e : Except ε α) = (Except.error e : Except ε β) := rfl

@[simp] theorem except_pure_eq_ok {ε α : Type} (a : α) :
    (pure a : Except ε α) = Except.ok a := rfl

/-! ## Claim theorems -/

/-- C1, counterexample: in `svc_maps` the map shape `M` has key shape `K`
(an Integer, classified Owned) and value shape `V` (a String, classified
Borrowed), yet `get_rust_type` classifies the map Borrowed, not Owned as the
claim's "value-only borrowing does not propagate" asserts; likewise in the
member-classification context (`get_member_ownership`), where the key shape
`K` is Owned under `get_shape_ownership` and the value shape `W` is
Borrowed, the map member `M2` is classified Borrowed. -/
theorem C1_counterexample :
    get_rust_type svc_maps 6 "K" shape_k false "String" =
      .ok ("i64", Ownership.owned) ∧
    get_rust_type svc_maps 6 "V" shape_v false "String" =
      .ok ("&'a str", Ownership.borrowed) ∧
    get_rust_type svc_maps 6 "M" shape_m false "String" =
      .ok ("::std::collections::HashMap<i64, &'a str>", Ownership.borrowed) ∧
    get_shape_ownership svc_maps 6 shape_k = .ok Ownership.owned ∧
    get_shape_ownership svc_maps 6 shape_w = .ok Ownership.borrowed ∧
    get_member_ownership svc_maps 6 member_m2 = .ok Ownership.borrowed := by
  refine ⟨?_, ?_, ?_, ?_, ?_, ?_⟩ <;> decide

/-- C1, amended: in both classification contexts a Map is Borrowed if its
key is classified Borrowed and otherwise takes the value's classification —
where `get_rust_type` classifies key and value with `get_rust_type` itself,
and `get_member_ownership` classifies them with `get_shape_ownership`.
Consequently a Map whose key is Owned and whose value is Borrowed is
classified Borrowed (value-only borrowing does propagate), contrary to the
original claim's "in particular". -/
theorem C1_map_ownership_amended :
    (∀ (svc : Service) (fuel : Nat) (shape_name : String) (shape : Shape)
       (ts kt vt : String) (ks vs : Shape) (ktxt vtxt : String) (ko vo : Ownership),
       shape.shape_type = ShapeType.map →
       shape.key_type = .ok kt →
       get_shape_unwrap svc kt = .ok ks →
       get_rust_type svc fuel kt ks false ts = .ok (ktxt, ko) →
       shape.value_type = .ok vt →
       get_shape_unwrap svc vt = .ok vs →
       get_rust_type svc fuel vt vs false ts = .ok (vtxt, vo) →
       get_rust_type svc (fuel + 1) shape_name shape false ts =
         .ok ("::std::collections::HashMap<" ++ ktxt ++ ", " ++ vtxt ++ ">",
              if ko = Ownership.borrowed then Ownership.borrowed else vo)) ∧
    (∀ (svc : Service) (fuel : Nat) (member : Member) (mshape : Shape)
       (kt vt : String) (ks vs : Shape) (ko vo : Ownership),
       svc.get_shape member.shape = some mshape →
       mshape.shape_type = ShapeType.map →
       mshape.key_type = .ok kt →
       get_shape_unwrap svc kt = .ok ks →
       get_shape_ownership svc fuel ks = .ok ko →
       mshape.value_type = .ok vt →
       get_shape_unwrap svc vt = .ok vs →
       get_shape_ownership svc fuel vs = .ok vo →
       get_member_ownership svc (fuel + 1) member =
         .ok (if ko = Ownership.borrowed then Ownership.borrowed else vo)) := by
  constructor
  · intro svc fuel shape_name shape ts kt vt ks vs ktxt vtxt ko vo
      hty hkt hks hkr hvt hvs hvr
    cases ko <;> cases vo <;>
      simp [get_rust_type, hty, hkt, hks, hkr, hvt, hvs, hvr]
  · intro svc fuel member mshape kt vt ks vs ko vo
      hms hty hkt hks hko hvt hvs hvo
    cases ko <;> cases vo <;>
      simp [get_member_ownership, hms, hty, hkt, hks, hko, hvt, hvs, hvo]

/-- C1, witness for the amended theorem at the concrete service
`svc_maps`. -/
theorem C1_map_ownership_amended_witness :
    get_rust_type svc_maps 6 "M" shape_m false "String" =
      .ok ("::std::collections::HashMap<i64, &'a str>",
           if Ownership.owned = Ownership.borrowed then Ownership.borrowed
           else Ownership.borrowed) ∧
    get_member_ownership svc_maps 6 member_m2 =
      .ok (if Ownership.owned = Ownership.borrowed then Ownership.borrowed
           else Ownership.borrowed) :=
  ⟨C1_map_ownership_amended.1 svc_maps 5 "M" shape_m "String" "K" "V" shape_k shape_v
     "i64" "&'a str" Ownership.owned Ownership.borrowed
     (by decide) (by decide) (by decide) (by decide) (by decide) (by decide) (by decide),
   C1_map_ownership_amended.2 svc_maps 5 member_m2 shape_m2 "K" "W" shape_k shape_w
     Ownership.owned Ownership.borrowed
     (by decide) (by decide) (by decide) (by decide) (by decide) (by decide)
     (by decide) (by decide)⟩

/-- C2: on the legal cyclic service `svc_cyclic` (structure `A` references
itself through member `SelfRef`), the ownership resolver never produces a
classification: for every fuel bound the computation runs out of fuel, i.e.
the unguarded recursion of `get_shape_ownership`/`get_member_ownership`
diverges instead of terminating.  (The Rust `Memo` parameter that was meant
for memoization is never read or written.) -/
theorem C2_cyclic_divergence : ∀ fuel : Nat,
    get_shape_ownership svc_cyclic fuel shape_a = .error .outOfFuel ∧
    get_member_ownership svc_cyclic fuel member_self = .error .outOfFuel := by
  intro fuel
  induction fuel with
  | zero => exact ⟨rfl, rfl⟩
  | succ n ih =>
    have hmem : shape_a.members = some [("SelfRef", member_self)] := rfl
    have hms : member_self.shape = "A" := rfl
    have hA : Service.get_shape svc_cyclic "A" = some shape_a := rfl
    have hst : shape_a.shape_type = ShapeType.structure' := rfl
    constructor
    · simp [get_shape_ownership, hmem, ih.2]
    · simp [get_member_ownership, hms, hA, hst, ih.1]

/-- C3: the two ownership computations disagree on the structure `S` of
`svc_c3` (single non-deprecated member of Map type with a String key):
the member scan of `generate_struct_fields` classifies it Borrowed, so the
emitted declaration is `pub struct S<'a>`, while the structure's own
`get_shape_ownership` classification is Owned, so occurrences of `S` as a
member of another shape are emitted without `<'a>`. -/
theorem C3_struct_ownership_disagreement :
    generate_struct_fields svc_c3 8 shape_s_c3 "S" false "String" =
      .ok ("pub f: Option<::std::collections::HashMap<&'a str, i64>>,",
           Ownership.borrowed) ∧
    get_shape_ownership svc_c3 8 shape_s_c3 = .ok Ownership.owned ∧
    get_rust_type svc_c3 8 "S" shape_s_c3 false "String" =
      .ok ("S", Ownership.owned) ∧
    generate_struct svc_c3 8 "S" shape_s_c3 false false demo_caps =
      .ok ("\npub struct S<'a> \x7b\npub f: Option<::std::collections::HashMap<&'a str, i64>>,\n\x7d\n") := by
  refine ⟨?_, ?_, ?_, ?_⟩ <;> decide

/-- C4: in `svc_list` the List shape `L` over the String element `Str` is
classified Owned by `get_rust_type` (which recomputes the element ownership
via `get_shape_ownership`, for which a memberless String shape is Owned),
even though its emitted type text is the borrowing `Vec<&'a str>` and the
element itself is classified Borrowed; `get_member_ownership` classifies a
member referencing `L` Owned as well.  The claim (and spec §4.1/§8) says a
List inherits its element's classification, hence Borrowed here. -/
theorem C4_list_of_string_owned :
    get_rust_type svc_list 6 "L" shape_l false "String" =
      .ok ("Vec<&'a str>", Ownership.owned) ∧
    get_rust_type svc_list 6 "Str" shape_str false "String" =
      .ok ("&'a str", Ownership.borrowed) ∧
    get_member_ownership svc_list 6 member_l = .ok Ownership.owned := by
  refine ⟨?_, ?_, ?_⟩ <;> decide

/-- Helper: a successful run of the shared `generate` pipeline records
exactly the backend pair it was given. -/
theorem generate_records_backends (svc : Service) (fuel : Nat) (caps : ProtocolCaps)
    (pb : ProtocolBackend) (eb : ErrorTypesBackend) (out : GeneratedModule)
    (h : generate svc fuel caps pb eb = .ok out) :
    out.protocol_backend = pb ∧ out.error_backend = eb := by
  unfold generate at h
  cases hg : generate_types svc caps fuel with
  | error e => rw [hg] at h; simp at h
  | ok t =>
    rw [hg] at h
    simp at h
    rw [← h]
    exact ⟨rfl, rfl⟩

/-- C5: the error-taxonomy backend is a function of the protocol tag alone —
`json`/`rest-json` always pair with the JSON error backend, `query`/`ec2`/
`rest-xml` always pair with the XML error backend, and any other protocol
tag makes `generate_source` abort fatally, producing no output module. -/
theorem C5_protocol_dispatch :
    (∀ (svc : Service) (fuel : Nat) (caps : ProtocolBackend → ProtocolCaps)
       (out : GeneratedModule),
       generate_source svc fuel caps = .ok out →
       (svc.protocol = "json" ∨ svc.protocol = "rest-json") →
       out.error_backend = .json_error_types) ∧
    (∀ (svc : Service) (fuel : Nat) (caps : ProtocolBackend → ProtocolCaps)
       (out : GeneratedModule),
       generate_source svc fuel caps = .ok out →
       (svc.protocol = "query" ∨ svc.protocol = "ec2" ∨ svc.protocol = "rest-xml") →
       out.error_backend = .xml_error_types) ∧
    (∀ (svc : Service) (fuel : Nat) (caps : ProtocolBackend → ProtocolCaps),
       svc.protocol ≠ "json" → svc.protocol ≠ "query" → svc.protocol ≠ "ec2" →
       svc.protocol ≠ "rest-json" → svc.protocol ≠ "rest-xml" →
       generate_source svc fuel caps = .error .fatal) := by
  refine ⟨?_, ?_, ?_⟩
  · intro svc fuel caps out h hp
    rcases hp with hp | hp <;>
    · unfold generate_source at h
      rw [hp] at h
      simp at h
      exact (generate_records_backends _ _ _ _ _ _ h).2
  · intro svc fuel caps out h hp
    rcases hp with hp | hp | hp <;>
    · unfold generate_source at h
      rw [hp] at h
      simp at h
      exact (generate_records_backends _ _ _ _ _ _ h).2
  · intro svc fuel caps h1 h2 h3 h4 h5
    unfold generate_source
    split <;> simp_all

/-- C5, witness at concrete services: a `json` service yields the JSON error
backend, a `query` service the XML one, and an unrecognized `avro` tag
aborts fatally. -/
theorem C5_protocol_dispatch_witness :
    (demo_module .json_gen .json_error_types).error_backend = .json_error_types ∧
    (demo_module .query_gen .xml_error_types).error_backend = .xml_error_types ∧
    generate_source (svc_proto "avro") 1 demo_caps_of = .error .fatal :=
  ⟨C5_protocol_dispatch.1 (svc_proto "json") 1 demo_caps_of
     (demo_module .json_gen .json_error_types) (by decide) (Or.inl rfl),
   C5_protocol_dispatch.2.1 (svc_proto "query") 1 demo_caps_of
     (demo_module .query_gen .xml_error_types) (by decide) (Or.inl rfl),
   C5_protocol_dispatch.2.2 (svc_proto "avro") 1 demo_caps_of
     (by decide) (by decide) (by decide) (by decide) (by decide)⟩

/-- C6, counterexample: in `svc_ghost` the member `F` of structure `S`
references the absent shape name `Ghost`, yet `get_member_ownership` returns
the default classification Owned instead of failing — the missing reference
is silently treated as recoverable in this context, contrary to the claim
that it is always a fatal lookup failure. -/
theorem C6_counterexample :
    Service.get_shape svc_ghost "Ghost" = none ∧
    get_member_ownership svc_ghost 6 member_ghost = .ok Ownership.owned := by
  refine ⟨?_, ?_⟩ <;> decide

/-- C6, amended: a missing shape reference is fatal in `get_rust_type` —
the List element lookup and the Map key and value lookups all `unwrap` —
and in `generate_struct_fields` (member resolution `unwrap`s), but
`get_member_ownership` silently classifies a member whose own referenced
shape is absent as Owned instead of failing. -/
theorem C6_missing_reference_amended :
    (∀ (svc : Service) (fuel : Nat) (m : Member),
       svc.get_shape m.shape = none →
       get_member_ownership svc (fuel + 1) m = .ok Ownership.owned) ∧
    (∀ (svc : Service) (fuel : Nat) (n : String) (shape : Shape) (ts mt : String),
       shape.shape_type = ShapeType.list →
       shape.member_type = .ok mt →
       svc.get_shape mt = none →
       get_rust_type svc (fuel + 1) n shape false ts = .error .fatal) ∧
    (∀ (svc : Service) (fuel : Nat) (n : String) (shape : Shape) (ts kt : String),
       shape.shape_type = ShapeType.map →
       shape.key_type = .ok kt →
       svc.get_shape kt = none →
       get_rust_type svc (fuel + 1) n shape false ts = .error .fatal) ∧
    (∀ (svc : Service) (fuel : Nat) (n : String) (shape : Shape) (ts kt : String)
       (ks : Shape) (ktxt : String) (ko : Ownership) (vt : String),
       shape.shape_type = ShapeType.map →
       shape.key_type = .ok kt →
       get_shape_unwrap svc kt = .ok ks →
       get_rust_type svc fuel kt ks false ts = .ok (ktxt, ko) →
       shape.value_type = .ok vt →
       svc.get_shape vt = none →
       get_rust_type svc (fuel + 1) n shape false ts = .error .fatal) ∧
    (∀ (svc : Service) (fuel : Nat) (shape : Shape) (sn : String) (serde : Bool)
       (ts mname : String) (m : Member) (rest : List (String × Member)) (own : Ownership),
       ¬ m.deprecated = some true →
       svc.get_shape m.shape = none →
       generate_struct_fields_go svc fuel shape sn serde ts ((mname, m) :: rest) own =
         .error .fatal) := by
  refine ⟨?_, ?_, ?_, ?_, ?_⟩
  · intro svc fuel m h
    simp [get_member_ownership, h]
  · intro svc fuel n shape ts mt hty hmt h
    simp [get_rust_type, hty, hmt, get_shape_unwrap, h]
  · intro svc fuel n shape ts kt hty hkt h
    simp [get_rust_type, hty, hkt, get_shape_unwrap, h]
  · intro svc fuel n shape ts kt ks ktxt ko vt hty hkt hks hkr hvt h
    have hv : get_shape_unwrap svc vt = .error .fatal := by
      simp [get_shape_unwrap, h]
    simp [get_rust_type, hty, hkt, hks, hkr, hvt, hv]
  · intro svc fuel shape sn serde ts mname m rest own hdep h
    simp [generate_struct_fields_go, hdep, Service.shape_for_member, h]

/-- C6, witness for the amended theorem on the concrete service
`svc_ghost`: the silent Owned default, the fatal List element lookup, the
fatal Map key lookup, the fatal Map value lookup, and the fatal member
resolution in the field loop. -/
theorem C6_missing_reference_amended_witness :
    get_member_ownership svc_ghost 6 { shape := "Ghost" } = .ok Ownership.owned ∧
    get_rust_type svc_ghost 6 "L" shape_l_ghost false "String" = .error .fatal ∧
    get_rust_type svc_ghost 6 "MK" shape_mk_ghost false "String" = .error .fatal ∧
    get_rust_type svc_ghost 6 "MV" shape_mv_ghost false "String" = .error .fatal ∧
    generate_struct_fields_go svc_ghost 6 shape_s_ghost "S" false "String"
      [("F", member_ghost)] Ownership.owned = .error .fatal :=
  ⟨C6_missing_reference_amended.1 svc_ghost 5 { shape := "Ghost" } (by decide),
   C6_missing_reference_amended.2.1 svc_ghost 5 "L" shape_l_ghost "String" "Ghost"
     (by decide) (by decide) (by decide),
   C6_missing_reference_amended.2.2.1 svc_ghost 5 "MK" shape_mk_ghost "String" "Ghost"
     (by decide) (by decide) (by decide),
   C6_missing_reference_amended.2.2.2.1 svc_ghost 5 "MV" shape_mv_ghost "String" "Str2"
     { shape_type := .string } "&'a str" Ownership.borrowed "Ghost"
     (by decide) (by decide) (by decide) (by decide) (by decide) (by decide),
   C6_missing_reference_amended.2.2.2.2 svc_ghost 6 shape_s_ghost "S" false "String"
     "F" member_ghost [] Ownership.owned (by decide) (by decide)⟩

/-- Helper: the member loop of `generate_struct_fields` emits nothing and
keeps its accumulator when every member is deprecated. -/
theorem gsf_go_all_deprecated (svc : Service) (fuel : Nat) (shape : Shape)
    (sn : String) (serde : Bool) (ts : String) :
    ∀ (ms : List (String × Member)) (own : Ownership),
      (∀ p ∈ ms, p.2.deprecated = some true) →
      generate_struct_fields_go svc fuel shape sn serde ts ms own = .ok ([], own) := by
  intro ms
  induction ms with
  | nil => intro own _; rfl
  | cons p rest ih =>
    intro own h
    obtain ⟨mname, m⟩ := p
    have hp : m.deprecated = some true := h (mname, m) (by simp)
    have hrest : ∀ q ∈ rest, q.2.deprecated = some true := by
      intro q hq; exact h q (by simp [hq])
    simp [generate_struct_fields_go, hp, ih own hrest]

/-- C7, counterexample: the structure `D` of `svc_depr` has a non-empty
member collection consisting only of a deprecated member; `generate_struct`
emits a braced struct with an empty body, not the unit form `pub struct D;`
that the claim requires for zero non-deprecated members. -/
theorem C7_counterexample :
    generate_struct svc_depr 6 "D" shape_d false false demo_caps =
      .ok "\npub struct D \x7b\n\n\x7d\n" ∧
    generate_struct svc_depr 6 "D" shape_d false false demo_caps ≠
      .ok "\npub struct D;\n" := by
  refine ⟨?_, ?_⟩ <;> decide

/-- C7, amended: the unit/marker form is emitted exactly when the member
collection is absent or empty; a structure whose members are all deprecated
instead emits a braced struct with an empty body (and no lifetime
qualifier). -/
theorem C7_empty_structure_amended :
    (∀ (svc : Service) (fuel : Nat) (name : String) (shape : Shape)
       (s d : Bool) (caps : ProtocolCaps),
       (shape.members = none ∨ shape.members = some []) →
       generate_struct svc fuel name shape s d caps =
         .ok (caps.struct_attributes s d ++ "\npub struct " ++ name ++ ";\n")) ∧
    (∀ (svc : Service) (fuel : Nat) (name : String) (shape : Shape)
       (s d : Bool) (caps : ProtocolCaps) (ms : List (String × Member)),
       shape.members = some ms → ms ≠ [] →
       (∀ p ∈ ms, p.2.deprecated = some true) →
       generate_struct svc fuel name shape s d caps =
         .ok (caps.struct_attributes s d ++ "\npub struct " ++ name ++ "" ++
              " \x7b\n" ++ "" ++ "\n\x7d\n")) := by
  constructor
  · intro svc fuel name shape s d caps h
    simp [generate_struct, h]
  · intro svc fuel name shape s d caps ms hms hne hdep
    simp [generate_struct, hms, hne, generate_struct_fields,
          gsf_go_all_deprecated svc fuel shape name _ _ ms Ownership.owned hdep,
          String.intercalate]

/-- C7, witness for the amended theorem on the concrete shapes `E` (empty
member collection) and `D` (all members deprecated) of `svc_depr`. -/
theorem C7_empty_structure_amended_witness :
    generate_struct svc_depr 6 "E" shape_e false false demo_caps =
      .ok (demo_caps.struct_attributes false false ++ "\npub struct " ++ "E" ++ ";\n") ∧
    generate_struct svc_depr 6 "D" shape_d false false demo_caps =
      .ok (demo_caps.struct_attributes false false ++ "\npub struct " ++ "D" ++ "" ++
           " \x7b\n" ++ "" ++ "\n\x7d\n") :=
  ⟨C7_empty_structure_amended.1 svc_depr 6 "E" shape_e false false demo_caps
     (Or.inr (by decide)),
   C7_empty_structure_amended.2 svc_depr 6 "D" shape_d false false demo_caps
     [("Old", { shape := "X", deprecated := some true })]
     (by decide) (by decide) (by decide)⟩

/-- C8: field names are the lower-snake-case conversion of the member name
with a trailing underscore exactly when the conversion is `return` or
`type`; the `aws_` collision prefix for a sanitized name equal to `type`
exists in the emission rule but can never fire, because the sanitizer never
outputs the bare word `type` — so a member literally named `type` yields the
distinct field name `type_`, and a member named `return` yields `return_`. -/
theorem C8_field_name_rules :
    (∀ m : String, generate_field_name m =
       if to_snake_case m = "return" ∨ to_snake_case m = "type"
       then to_snake_case m ++ "_" else to_snake_case m) ∧
    (∀ m : String, generate_field_name m ≠ "type") ∧
    generate_field_name "type" = "type_" ∧
    generate_field_name "return" = "return_" ∧
    (∀ (shape : Shape) (mname t : String),
       shape.is_required mname = false →
       field_line shape mname t =
         if generate_field_name mname = "type"
         then "pub aws_" ++ generate_field_name mname ++ ": Option<" ++ t ++ ">,"
         else "pub " ++ generate_field_name mname ++ ": Option<" ++ t ++ ">,") := by
  refine ⟨fun m => rfl, ?_, by decide, by decide, ?_⟩
  · intro m
    unfold generate_field_name
    by_cases h : to_snake_case m = "return" ∨ to_snake_case m = "type"
    · rw [if_pos h]
      rcases h with h | h <;> rw [h] <;> decide
    · rw [if_neg h]
      push_neg at h
      exact h.2
  · intro shape mname t h
    simp [field_line, h]

/-- C8, witness: on a shape with an empty required set, a member literally
named `type` is emitted as the field `type_`, not `type` and not an
`aws_`-prefixed name. -/
theorem C8_field_name_rules_witness :
    field_line { shape_type := ShapeType.structure' } "type" "&'a str" =
      "pub type_: Option<&'a str>," := by
  rw [C8_field_name_rules.2.2.2.2 { shape_type := ShapeType.structure' }
        "type" "&'a str" (by decide)]
  decide

/-- C9: a streaming occurrence bypasses the resolution algorithm — the
resolved type is the shape name prefixed with `Streaming` and the
classification is always Owned; in `generate_struct_fields` the streaming
wrapper is used only when the enclosing shape is not an operation input
shape (`Req`, the input of `Op` in `svc_stream`, gets the plain `Vec<u8>`
field while the otherwise-identical non-input `Resp` gets `StreamingData`);
and the wrapper's generated `Debug` representation is the fixed placeholder,
independent of the payload. -/
theorem C9_streaming_isolation :
    (∀ (svc : Service) (fuel : Nat) (n : String) (shape : Shape) (ts : String),
       get_rust_type svc (fuel + 1) n shape true ts =
         .ok (mutate_type_name_for_streaming n, Ownership.owned)) ∧
    (∀ n : String, mutate_type_name_for_streaming n = "Streaming" ++ n) ∧
    (member_body.streaming = true ∧
     is_input_shape svc_stream "Req" = true ∧
     is_input_shape svc_stream "Resp" = false) ∧
    generate_struct_fields svc_stream 6 shape_req "Req" false "String" =
      .ok ("pub body: Option<Vec<u8>>,", Ownership.owned) ∧
    generate_struct_fields svc_stream 6 shape_resp "Resp" false "String" =
      .ok ("pub body: Option<StreamingData>,", Ownership.owned) ∧
    (∀ (n : String) (payload other : List Nat),
       streaming_wrapper_debug n payload = streaming_debug_format n ∧
       streaming_wrapper_debug n payload = streaming_wrapper_debug n other) :=
  ⟨fun _ _ _ _ _ => rfl, fun _ => rfl, by decide, by decide, by decide,
   fun _ _ _ => ⟨rfl, rfl⟩⟩

/-- C10: the error type name is the collision-sanitized type name with the
literal suffix `Error`; in particular the sanitizer's collision table
applies inside error names, so the shape named `Error` yields
`S3ErrorError`, not `ErrorError`, and `Option` yields `RDSOptionError`;
capitalization and underscore-stripping also apply. -/
theorem C10_error_type_name :
    (∀ n : String, error_type_name n = mutate_type_name n ++ "Error") ∧
    mutate_type_name "Error" = "S3Error" ∧
    error_type_name "Error" = "S3ErrorError" ∧
    error_type_name "Error" ≠ "ErrorError" ∧
    error_type_name "Option" = "RDSOptionError" ∧
    error_type_name "CancelSpotFleetRequests" = "EC2CancelSpotFleetRequestsError" ∧
    error_type_name "my_shape" = "MyshapeError" :=
  ⟨fun _ => rfl, by decide, by decide, by decide, by decide, by decide, by decide⟩

end Crategen
